import Mathlib

/-!
Shallow embedding of the probability core of `src/main.py` (Poisson and
hypergeometric PMF calculators exposed through a FastAPI app), together
with theorems settling the specification claims about it.

Python `float` parameters are modelled as real numbers (`ℝ`) where the
computation is transcendental (Poisson, which uses `math.exp`) and as
rationals (`ℚ`) where it is ratio-of-integers arithmetic (hypergeometric,
whose `scipy.special.comb` values are integral).  Python `int` is `ℤ`.
HTTP, templating and the matplotlib/base64 plot rendering are out of the
core (the spec treats them as collaborators); what the embedded entry
points keep is their validation behaviour and the numeric series they
hand to the renderer.
-/

namespace Main

/-- Model of `scipy.special.comb(a, b)` as used in `main.py`
(`hypergeometric_pmf`, line 12 import): the binomial coefficient
C(a, b), which is 0 when `b < 0`, `b > a` (hence also when `a < 0`). -/
def comb (a b : ℤ) : ℚ :=
  if 0 ≤ b ∧ b ≤ a then (a.toNat.choose b.toNat : ℚ) else 0

/-- `poisson_pmf` (main.py lines 41-45): guard `x < 0 or lam <= 0`
returns 0.0, otherwise `exp(-lam) * lam ** x / factorial(x)`. -/
noncomputable def poisson_pmf (x : ℤ) (lam : ℝ) : ℝ :=
  if x < 0 ∨ lam ≤ 0 then 0
  else Real.exp (-lam) * lam ^ x.toNat / (Nat.factorial x.toNat : ℝ)

/-- `hypergeometric_pmf` (main.py lines 129-139): support guard
`x < max(0, n + K - N) or x > min(n, K)` returns 0.0; the denominator
guard `comb(N, n) == 0` returns 0.0; otherwise
`comb(K, x) * comb(N - K, n - x) / comb(N, n)`. -/
def hypergeometric_pmf (x N K n : ℤ) : ℚ :=
  if x < max 0 (n + K - N) ∨ min n K < x then 0
  else if comb N n = 0 then 0
  else comb K x * comb (N - K) (n - x) / comb N n

/-- Model of `list(range(lo, hi + 1))` over `ℤ`: the integers from `lo`
to `hi` inclusive, in order (empty when `hi < lo`). -/
def intRange (lo hi : ℤ) : List ℤ :=
  (List.range (hi - lo + 1).toNat).map (fun i : ℕ => lo + (i : ℤ))

/-- The x-range-selection heuristic both Poisson entry points pass to
`generate_poisson_plot_base64` (main.py lines 87 and 116):
`int(lam * 3) if lam * 3 > 15 else 15`.  The truncation `int(...)` is
the floor, since it is only applied when `lam * 3 > 15 > 0`. -/
noncomputable def poisson_max_x (lam : ℝ) : ℤ :=
  if 15 < lam * 3 then ⌊lam * 3⌋ else 15

/-- The numeric series computed by `generate_poisson_plot_base64`
(main.py lines 48-51): the pairs `(x, poisson_pmf(x, lam))` for
`x` in `np.arange(0, max_x + 1)`.  The plot rendering of those pairs is
out of the core. -/
noncomputable def poisson_series (lam : ℝ) (max_x : ℤ) : List (ℤ × ℝ) :=
  (intRange 0 max_x).map (fun x => (x, poisson_pmf x lam))

/-- The numeric series computed by `generate_hypergeometric_plot_base64`
(main.py lines 142-149): `min_x = max(0, n + K - N)`, `max_x = min(n, K)`,
and the pairs `(x, hypergeometric_pmf(x, N, K, n))` for
`x` in `list(range(min_x, max_x + 1))`.  Plot rendering out of the core. -/
def hyper_series (N K n : ℤ) : List (ℤ × ℚ) :=
  (intRange (max 0 (n + K - N)) (min n K)).map
    (fun x => (x, hypergeometric_pmf x N K n))

/-- The validation-failure message raised by `calculate_hyper_from_form`
(main.py line 222) and echoed into the page as the result. -/
def hyperValidationMsg : String :=
  "Valores inconsistentes: revisa que K <= N, n <= N, x <= n y x <= K."

/-- Message standing for FastAPI rejecting a request whose `Form`
field constraints fail (HTTP 422), before the handler body runs. -/
def formFieldViolationMsg : String := "422 Unprocessable Entity"

/-- The `/` POST handler `calculate_from_form` (main.py lines 77-105)
as seen by a client: FastAPI first enforces the field constraints
`lam: Form(gt=0)` and `x: Form(ge=0)` (a 422 validation failure),
then the handler computes `poisson_pmf(x, lam)`.  Formula string and
plot rendering are out of the core. -/
noncomputable def calculate_from_form (lam : ℝ) (x : ℤ) : Except String ℝ :=
  if 0 < lam ∧ 0 ≤ x then Except.ok (poisson_pmf x lam)
  else Except.error formFieldViolationMsg

/-- The `/api/poisson` handler `calculate_poisson_api`
(main.py lines 108-124): `PoissonRequest` (lines 28-30) declares the
bare types `lam: float`, `x: int` with no value constraints, and the
handler body performs no validation, so every request reaches
`poisson_pmf` and is answered successfully. -/
noncomputable def calculate_poisson_api (lam : ℝ) (x : ℤ) : Except String ℝ :=
  Except.ok (poisson_pmf x lam)

/-- The `/hyper` POST handler `calculate_hyper_from_form`
(main.py lines 211-243) as seen by a client: FastAPI enforces the field
constraints `N: gt=0, K: ge=0, n: gt=0, x: ge=0` (422), then the body
raises `ValueError` when `K > N or n > N or x > n or x > K` — caught by
the `except` and rendered as the error result — and otherwise computes
`hypergeometric_pmf(x, N, K, n)`. -/
def calculate_hyper_from_form (N K n x : ℤ) : Except String ℚ :=
  if 0 < N ∧ 0 ≤ K ∧ 0 < n ∧ 0 ≤ x then
    if N < K ∨ N < n ∨ n < x ∨ K < x then Except.error hyperValidationMsg
    else Except.ok (hypergeometric_pmf x N K n)
  else Except.error formFieldViolationMsg

/-- The `/api/hypergeometric` handler `calculate_hypergeometric_api`
(main.py lines 185-202): `HypergeometricRequest` (lines 169-173)
declares bare `int` fields with no constraints and the handler body
performs no validation, so every request reaches `hypergeometric_pmf`
and is answered successfully. -/
def calculate_hypergeometric_api (N K n x : ℤ) : Except String ℚ :=
  Except.ok (hypergeometric_pmf x N K n)

/-!  ## Theorems settling the specification claims  -/

/-- C1: for every integer x >= 0 and real lam > 0, `poisson_pmf x lam`
equals e^(-lam) * lam^x / x!; in particular `poisson_pmf 3 2.5` lies
within 10^-6 of 0.213763. -/
theorem poisson_pmf_formula_correct :
    (∀ (x : ℤ) (lam : ℝ), 0 ≤ x → 0 < lam →
      poisson_pmf x lam = Real.exp (-lam) * lam ^ x.toNat / (Nat.factorial x.toNat : ℝ)) ∧
    |poisson_pmf 3 (5/2) - 213763/1000000| < 1/1000000 := by
  constructor
  · intro x lam hx hl
    rw [poisson_pmf, if_neg (by push_neg; exact ⟨by omega, hl⟩)]
  · have habs : |(-(1/2):ℝ)| = 1/2 := by
      rw [abs_neg, abs_of_nonneg] ; norm_num
    have hb := Real.exp_bound (x := -(1/2)) (by rw [habs]; norm_num) (n := 9) (by norm_num)
    rw [habs] at hb
    norm_num [Finset.sum_range_succ, Nat.factorial] at hb
    have hlo : (6260561/10321920 - 1/167215104 : ℝ) ≤ Real.exp (-(1/2)) := by
      have := (abs_le.mp hb).1; linarith
    have hhi : Real.exp (-(1/2)) ≤ (6260561/10321920 + 1/167215104 : ℝ) := by
      have := (abs_le.mp hb).2; linarith
    have h5 : Real.exp (-(5/2) : ℝ) = Real.exp (-(1/2)) ^ 5 := by
      rw [← Real.exp_nat_mul]; norm_num
    have plo : ((6260561/10321920 - 1/167215104 : ℝ)) ^ 5 ≤ Real.exp (-(1/2)) ^ 5 :=
      pow_le_pow_left₀ (by norm_num) hlo 5
    have phi : Real.exp (-(1/2)) ^ 5 ≤ ((6260561/10321920 + 1/167215104 : ℝ)) ^ 5 :=
      pow_le_pow_left₀ (Real.exp_nonneg _) hhi 5
    have key : poisson_pmf 3 (5/2) = Real.exp (-(1/2)) ^ 5 * (125/48) := by
      rw [poisson_pmf, if_neg (by norm_num)]
      rw [show ((3:ℤ).toNat) = 3 from rfl, h5]
      norm_num [Nat.factorial]
      ring
    have c1 := mul_le_mul_of_nonneg_right plo (by norm_num : (0:ℝ) ≤ 125/48)
    have c2 := mul_le_mul_of_nonneg_right phi (by norm_num : (0:ℝ) ≤ 125/48)
    have d1 : (213762/1000000 : ℝ) <
        ((6260561/10321920 - 1/167215104 : ℝ)) ^ 5 * (125/48) := by norm_num
    have d2 : ((6260561/10321920 + 1/167215104 : ℝ)) ^ 5 * (125/48) <
        (213764/1000000 : ℝ) := by norm_num
    rw [key, abs_lt]
    constructor <;> linarith

/-- Witness for C1: the formula part applied at x = 3, lam = 5/2. -/
theorem poisson_pmf_formula_correct_witness :
    poisson_pmf 3 (5/2) =
      Real.exp (-(5/2 : ℝ)) * (5/2 : ℝ) ^ (3:ℤ).toNat / (Nat.factorial (3:ℤ).toNat : ℝ) :=
  poisson_pmf_formula_correct.1 3 (5/2) (by decide) (by norm_num)

/-- C2: for every x in the support range, `hypergeometric_pmf x N K n`
equals C(K,x) * C(N-K,n-x) / C(N,n) with the out-of-range-is-zero
binomial convention; in particular `hypergeometric_pmf 2 10 5 4` is
10/21, within 10^-6 of 0.476190. -/
theorem hypergeometric_pmf_formula_correct :
    (∀ x N K n : ℤ, max 0 (n + K - N) ≤ x → x ≤ min n K →
      hypergeometric_pmf x N K n = comb K x * comb (N - K) (n - x) / comb N n) ∧
    hypergeometric_pmf 2 10 5 4 = 10/21 ∧
    |hypergeometric_pmf 2 10 5 4 - 476190/1000000| < 1/1000000 := by
  have h1 : (Int.toNat 10).choose (Int.toNat 4) = 210 := rfl
  have h2 : (Int.toNat 5).choose (Int.toNat 2) = 10 := rfl
  refine ⟨?_, ?_, ?_⟩
  · intro x N K n hx1 hx2
    rw [hypergeometric_pmf, if_neg (by omega)]
    by_cases hd : comb N n = 0
    · rw [if_pos hd, hd, div_zero]
    · rw [if_neg hd]
  · norm_num [hypergeometric_pmf, comb, h1, h2]
  · rw [abs_lt]
    norm_num [hypergeometric_pmf, comb, h1, h2]

/-- Witness for C2: the formula part applied at x=2, N=10, K=5, n=4. -/
theorem hypergeometric_pmf_formula_correct_witness :
    hypergeometric_pmf 2 10 5 4 = comb 5 2 * comb (10 - 5) (4 - 2) / comb 10 4 :=
  hypergeometric_pmf_formula_correct.1 2 10 5 4 (by decide) (by decide)

/-- C3: out-of-domain queries return 0.0 from both engines:
`poisson_pmf` for x < 0 or lam <= 0, `hypergeometric_pmf` for x outside
[max(0, n+K-N), min(n, K)]; being total functions, they never raise. -/
theorem out_of_domain_returns_zero :
    (∀ (x : ℤ) (lam : ℝ), x < 0 ∨ lam ≤ 0 → poisson_pmf x lam = 0) ∧
    (∀ x N K n : ℤ, x < max 0 (n + K - N) ∨ min n K < x →
      hypergeometric_pmf x N K n = 0) := by
  constructor
  · intro x lam h
    rw [poisson_pmf, if_pos h]
  · intro x N K n h
    rw [hypergeometric_pmf, if_pos h]

/-- Witness for C3: a negative x for Poisson and an above-support x for
the hypergeometric engine. -/
theorem out_of_domain_returns_zero_witness :
    poisson_pmf (-1) 1 = 0 ∧ hypergeometric_pmf 5 10 5 4 = 0 :=
  ⟨out_of_domain_returns_zero.1 (-1) 1 (Or.inl (by decide)),
   out_of_domain_returns_zero.2 5 10 5 4 (Or.inr (by decide))⟩

/-- C4 counterexample: the JSON API entry point `/api/hypergeometric`
performs no validation: the request N=10, K=12, n=5, x=3 (K > N) is
answered with a successful probability 0.0, not a validation failure. -/
theorem hyper_api_returns_zero_not_error :
    calculate_hypergeometric_api 10 12 5 3 = Except.ok 0 := by
  rw [calculate_hypergeometric_api,
    show hypergeometric_pmf 3 10 12 5 = 0 by norm_num [hypergeometric_pmf]]

/-- C4 amended: the HTML-form hypergeometric entry point (with its form
fields in range) signals the validation failure whenever K > N, n > N,
x > n or x > K; in particular the request N=10, K=12, n=5, x=3 fails
with the message naming the constraints. -/
theorem hyper_form_validates_inconsistent_params :
    (∀ N K n x : ℤ, 0 < N → 0 ≤ K → 0 < n → 0 ≤ x →
      (N < K ∨ N < n ∨ n < x ∨ K < x) →
      calculate_hyper_from_form N K n x = Except.error hyperValidationMsg) ∧
    calculate_hyper_from_form 10 12 5 3 = Except.error hyperValidationMsg := by
  have h1 : ∀ N K n x : ℤ, 0 < N → 0 ≤ K → 0 < n → 0 ≤ x →
      (N < K ∨ N < n ∨ n < x ∨ K < x) →
      calculate_hyper_from_form N K n x = Except.error hyperValidationMsg := by
    intro N K n x hN hK hn hx h
    rw [calculate_hyper_from_form, if_pos ⟨hN, hK, hn, hx⟩, if_pos h]
  exact ⟨h1, h1 10 12 5 3 (by decide) (by decide) (by decide) (by decide)
    (Or.inl (by decide))⟩

/-- Witness for C4 (amended): the validation branch taken at
N=10, K=12, n=5, x=3. -/
theorem hyper_form_validates_inconsistent_params_witness :
    calculate_hyper_from_form 10 12 5 3 = Except.error hyperValidationMsg :=
  hyper_form_validates_inconsistent_params.1 10 12 5 3 (by decide) (by decide)
    (by decide) (by decide) (Or.inl (by decide))

/-- C5 counterexample: the JSON API entry point `/api/poisson` performs
no validation: lam = -1 (<= 0) with x = 3 is answered with a successful
probability 0.0, not rejected. -/
theorem poisson_api_accepts_invalid_lam :
    calculate_poisson_api (-1) 3 = Except.ok 0 := by
  rw [calculate_poisson_api,
    show poisson_pmf 3 (-1) = 0 by rw [poisson_pmf, if_pos (Or.inr (by norm_num))]]

/-- C5 amended: the HTML-form Poisson entry point rejects lam <= 0 or
x < 0 through its FastAPI form-field constraints, while the JSON API
entry point accepts every (lam, x) and answers with the engine value
(0.0 for such inputs), never a validation failure. -/
theorem poisson_entry_points_validation :
    (∀ (lam : ℝ) (x : ℤ), lam ≤ 0 ∨ x < 0 →
      calculate_from_form lam x = Except.error formFieldViolationMsg) ∧
    (∀ (lam : ℝ) (x : ℤ), calculate_poisson_api lam x = Except.ok (poisson_pmf x lam)) := by
  constructor
  · intro lam x h
    rw [calculate_from_form, if_neg]
    rintro ⟨h1, h2⟩
    rcases h with h | h
    · linarith
    · omega
  · intro lam x
    rw [calculate_poisson_api]

/-- Witness for C5 (amended): the form rejects lam = -1, x = 3; the API
answers that same query successfully. -/
theorem poisson_entry_points_validation_witness :
    calculate_from_form (-1) 3 = Except.error formFieldViolationMsg ∧
    calculate_poisson_api (-1) 3 = Except.ok (poisson_pmf 3 (-1)) :=
  ⟨poisson_entry_points_validation.1 (-1) 3 (Or.inl (by norm_num)),
   poisson_entry_points_validation.2 (-1) 3⟩

/-- C6: for every lam > 0, the Poisson series runs over x = 0..max_x
inclusive, where max_x is 15 by default and floor(lam*3) when
lam*3 > 15; for lam = 10 the series covers x = 0..30 and has length 31. -/
theorem poisson_series_range_policy :
    (∀ lam : ℝ, 0 < lam →
      (poisson_series lam (poisson_max_x lam)).map Prod.fst =
          intRange 0 (poisson_max_x lam) ∧
      (lam * 3 ≤ 15 → poisson_max_x lam = 15) ∧
      (15 < lam * 3 → poisson_max_x lam = ⌊lam * 3⌋)) ∧
    poisson_max_x 10 = 30 ∧
    (poisson_series 10 (poisson_max_x 10)).map Prod.fst = intRange 0 30 ∧
    (poisson_series 10 (poisson_max_x 10)).length = 31 := by
  have hfst : ∀ (lam : ℝ) (m : ℤ),
      (poisson_series lam m).map Prod.fst = intRange 0 m := by
    intro lam m
    simp [poisson_series, List.map_map, Function.comp_def]
  have h10 : poisson_max_x 10 = 30 := by
    rw [poisson_max_x, if_pos (by norm_num)]
    rw [show ((10:ℝ) * 3) = ((30:ℤ) : ℝ) by norm_num, Int.floor_intCast]
  refine ⟨fun lam _ => ⟨hfst lam _, ?_, ?_⟩, h10, ?_, ?_⟩
  · intro h
    rw [poisson_max_x, if_neg (not_lt.mpr h)]
  · intro h
    rw [poisson_max_x, if_pos h]
  · rw [h10]; exact hfst 10 30
  · rw [h10, poisson_series, List.length_map, intRange, List.length_map,
      List.length_range]
    rfl

/-- Witness for C6: the series x-values at lam = 10. -/
theorem poisson_series_range_policy_witness :
    (poisson_series 10 (poisson_max_x 10)).map Prod.fst =
      intRange 0 (poisson_max_x 10) :=
  (poisson_series_range_policy.1 10 (by norm_num)).1

/-- C7 counterexample: for N=10, K=5, n=4 the hypergeometric series
covers x = 0..4 (the support lower end is max(0, 4+5-10) = 0), not
x = 1..4 as the claim instantiates it. -/
theorem hyper_series_10_5_4_starts_at_zero :
    (hyper_series 10 5 4).map Prod.fst = [0, 1, 2, 3, 4] ∧
    (hyper_series 10 5 4).map Prod.fst ≠ [1, 2, 3, 4] := by
  decide

/-- C7 amended: for every valid (N, K, n) the hypergeometric series is
the ordered sequence of (x, pmf x) for x over exactly the support range
[max(0, n+K-N), min(n, K)], of length min(n,K) - max(0,n+K-N) + 1; for
N=10, K=5, n=4 it covers exactly x = 0..4. -/
theorem hyper_series_covers_full_support :
    (∀ N K n : ℤ, 0 < N → 0 ≤ K → K ≤ N → 1 ≤ n → n ≤ N →
      (hyper_series N K n).map Prod.fst = intRange (max 0 (n + K - N)) (min n K) ∧
      ((hyper_series N K n).length : ℤ) = min n K - max 0 (n + K - N) + 1 ∧
      ∀ p ∈ hyper_series N K n, p.2 = hypergeometric_pmf p.1 N K n) ∧
    (hyper_series 10 5 4).map Prod.fst = intRange 0 4 := by
  constructor
  · intro N K n hN hK hKN hn hnN
    have hle : max 0 (n + K - N) ≤ min n K := by
      simp only [le_min_iff, max_le_iff]
      omega
    refine ⟨?_, ?_, ?_⟩
    · simp [hyper_series, List.map_map, Function.comp_def]
    · rw [hyper_series, List.length_map, intRange, List.length_map,
        List.length_range, Int.toNat_of_nonneg (by linarith)]
    · intro p hp
      rw [hyper_series, List.mem_map] at hp
      rcases hp with ⟨x, _, rfl⟩
      rfl
  · decide

/-- Witness for C7 (amended): the general part applied at N=10, K=5,
n=4 (x-values and length). -/
theorem hyper_series_covers_full_support_witness :
    (hyper_series 10 5 4).map Prod.fst = intRange (max 0 (4 + 5 - 10)) (min 4 5) ∧
    ((hyper_series 10 5 4).length : ℤ) = min 4 5 - max 0 (4 + 5 - 10) + 1 :=
  ⟨(hyper_series_covers_full_support.1 10 5 4 (by decide) (by decide) (by decide)
      (by decide) (by decide)).1,
   (hyper_series_covers_full_support.1 10 5 4 (by decide) (by decide) (by decide)
      (by decide) (by decide)).2.1⟩

/-- C8: the denominator guard maps C(N,n) = 0 to probability 0.0
instead of dividing, and for x inside the support range the denominator
is positive, so the division-by-zero fault is unreachable there. -/
theorem hyper_denominator_guard :
    (∀ x N K n : ℤ, comb N n = 0 → hypergeometric_pmf x N K n = 0) ∧
    (∀ x N K n : ℤ, max 0 (n + K - N) ≤ x → x ≤ min n K → 0 < comb N n) := by
  constructor
  · intro x N K n h
    rw [hypergeometric_pmf]
    by_cases hg : x < max 0 (n + K - N) ∨ min n K < x
    · rw [if_pos hg]
    · rw [if_neg hg, if_pos h]
  · intro x N K n h1 h2
    rw [comb, if_pos (by constructor <;> omega)]
    have : 0 < N.toNat.choose n.toNat := Nat.choose_pos (by omega)
    exact_mod_cast this

/-- Witness for C8: the guard at a degenerate denominator (N=3, n=5)
and positivity of the denominator inside the support of (10, 5, 4). -/
theorem hyper_denominator_guard_witness :
    hypergeometric_pmf 0 3 0 5 = 0 ∧ 0 < comb 10 4 :=
  ⟨hyper_denominator_guard.1 0 3 0 5 (by norm_num [comb]),
   hyper_denominator_guard.2 2 10 5 4 (by decide) (by decide)⟩

/-- C9: the swap symmetry K <-> N-K, x <-> n-x of the hypergeometric
PMF, proved for all integer arguments (in particular for every valid
(N, K, n) and every x). -/
theorem hypergeometric_swap_symmetry (x N K n : ℤ) :
    hypergeometric_pmf x N K n = hypergeometric_pmf (n - x) N (N - K) n := by
  have hg : (x < max 0 (n + K - N) ∨ min n K < x) ↔
      (n - x < max 0 (n + (N - K) - N) ∨ min n (N - K) < n - x) := by
    simp only [lt_max_iff, min_lt_iff]
    omega
  have e1 : N - (N - K) = K := by ring
  have e2 : n - (n - x) = x := by ring
  rw [hypergeometric_pmf, hypergeometric_pmf, e1, e2]
  by_cases h : x < max 0 (n + K - N) ∨ min n K < x
  · rw [if_pos h, if_pos (hg.mp h)]
  · rw [if_neg h, if_neg (fun hc => h (hg.mpr hc)), mul_comm]

/-- C10: for every integer x >= 0 and real lam > 0, `poisson_pmf x lam`
is strictly positive; equivalently a returned probability of 0 occurs
only for out-of-domain queries. -/
theorem poisson_pmf_pos_in_domain :
    (∀ (x : ℤ) (lam : ℝ), 0 ≤ x → 0 < lam → 0 < poisson_pmf x lam) ∧
    (∀ (x : ℤ) (lam : ℝ), poisson_pmf x lam = 0 → x < 0 ∨ lam ≤ 0) := by
  have hpos : ∀ (x : ℤ) (lam : ℝ), 0 ≤ x → 0 < lam → 0 < poisson_pmf x lam := by
    intro x lam hx hl
    rw [poisson_pmf, if_neg (by push_neg; exact ⟨by omega, hl⟩)]
    have h1 : (0:ℝ) < Nat.factorial x.toNat := by exact_mod_cast Nat.factorial_pos _
    positivity
  refine ⟨hpos, ?_⟩
  intro x lam h
  by_contra hc
  push_neg at hc
  have := hpos x lam (by omega) (by linarith [hc.2])
  linarith [this, h.le]

/-- Witness for C10: positivity at x = 3, lam = 1. -/
theorem poisson_pmf_pos_in_domain_witness : 0 < poisson_pmf 3 1 :=
  poisson_pmf_pos_in_domain.1 3 1 (by decide) (by norm_num)

end Main
